import Mathlib

/-!
Verification of the shared stateful defense layer of the voipms-groundwire
worker: the IP rate limiter (`checkRateLimit`), the brute-force lockout guard
(`isAccountLocked` / `recordFailedAttempt` / `clearFailedAttempts`) and the
balance response cache (`getCachedBalance` / `setCachedBalance`).

The TypeScript source reads JSON records from a TTL-capable key-value store
through an unchecked cast, so a present record may fail the expected shape and
its fields then flow through JavaScript coercion (undefined, NaN, string
concatenation).  The embedding therefore works over a small JavaScript value
type `JsVal`: numbers are exact rationals (an integer numerator/denominator
pair; every number this code computes is exact, floats introduce no rounding
at these magnitudes) plus NaN, field access on a non-object or a missing
field yields `undef`, arithmetic and comparisons coerce through `ToNumber`,
and a store write canonicalizes the entry the way `JSON.stringify` followed
by a JSON read does (NaN becomes null, fields whose value is undefined are
dropped).  Wall-clock times (milliseconds) and the configuration fields are
integers, as they are in every run of the deployed code; the only
non-integral number the source ever forms is the transient `/ 1000` age
quotient, which the rational pair represents exactly.

The store is modelled as an association list from keys to the parsed value
together with the TTL the value was written with; `put` overwrites the key.
Store operations in the source are wrapped in try/catch and any operation may
throw; a call-site fault descriptor (`StoreFault`) says which operations
throw during one call, which realizes the catch branches as pure
alternatives.  The `debug` parameters and `debugLog` calls of the source only
produce log output and are omitted.
-/

/-- An exact JS number value as a numerator/denominator pair.  Denominators
are positive in every value the embedded code constructs (integer literals
have denominator 1 and the only division is by the literal 1000), which is
the domain on which the comparison operations below are valid. -/
structure JsRat where
  n : ℤ
  d : ℤ
deriving DecidableEq

/-- Embed an integer. -/
def JsRat.ofInt (x : ℤ) : JsRat := ⟨x, 1⟩

/-- Exact addition. -/
def JsRat.add (a b : JsRat) : JsRat := ⟨a.n * b.d + b.n * a.d, a.d * b.d⟩

/-- Exact subtraction. -/
def JsRat.sub (a b : JsRat) : JsRat := ⟨a.n * b.d - b.n * a.d, a.d * b.d⟩

/-- Exact division.  Division by zero would produce a zero denominator; the
source only ever divides by the literal 1000, so that case is unreachable. -/
def JsRat.div (a b : JsRat) : JsRat := ⟨a.n * b.d, a.d * b.n⟩

/-- Strict comparison, valid for positive denominators. -/
def JsRat.blt (a b : JsRat) : Bool := decide (a.n * b.d < b.n * a.d)

/-- Non-strict comparison, valid for positive denominators. -/
def JsRat.ble (a b : JsRat) : Bool := decide (a.n * b.d ≤ b.n * a.d)

/-- Is the value zero (valid for a nonzero denominator)? -/
def JsRat.isZero (a : JsRat) : Bool := decide (a.n = 0)

/-- A JavaScript number: an exact value or NaN.  The source never produces
infinities (JSON cannot encode them and the only division is by 1000). -/
inductive JsNum where
  | nan : JsNum
  | num : JsRat → JsNum
deriving DecidableEq

/-- A JavaScript value as obtained from a JSON read: undefined only arises
from a missing field access, the rest is the JSON fragment. -/
inductive JsVal where
  | undef : JsVal
  | null : JsVal
  | bool : Bool → JsVal
  | num : JsNum → JsVal
  | str : String → JsVal
  | obj : List (String × JsVal) → JsVal

/-- Shorthand for an integer JS number value. -/
def JsVal.ofInt (x : ℤ) : JsVal := JsVal.num (JsNum.num (JsRat.ofInt x))

/-- JS addition on numbers: NaN absorbs. -/
def JsNum.add : JsNum → JsNum → JsNum
  | JsNum.num a, JsNum.num b => JsNum.num (a.add b)
  | _, _ => JsNum.nan

/-- JS subtraction on numbers: NaN absorbs. -/
def JsNum.sub : JsNum → JsNum → JsNum
  | JsNum.num a, JsNum.num b => JsNum.num (a.sub b)
  | _, _ => JsNum.nan

/-- JS division on numbers: NaN absorbs. -/
def JsNum.div : JsNum → JsNum → JsNum
  | JsNum.num a, JsNum.num b => JsNum.num (a.div b)
  | _, _ => JsNum.nan

/-- JS `<` on numbers: any comparison with NaN is false. -/
def JsNum.lt : JsNum → JsNum → Bool
  | JsNum.num a, JsNum.num b => a.blt b
  | _, _ => false

/-- JS `>` on numbers: any comparison with NaN is false. -/
def JsNum.gt : JsNum → JsNum → Bool
  | JsNum.num a, JsNum.num b => b.blt a
  | _, _ => false

/-- JS `>=` on numbers: any comparison with NaN is false. -/
def JsNum.ge : JsNum → JsNum → Bool
  | JsNum.num a, JsNum.num b => b.ble a
  | _, _ => false

/-- Decimal digit run to a natural number; `none` on a non-digit or an empty
run. -/
def decDigits? (cs : List Char) : Option ℕ :=
  if cs.isEmpty then none
  else cs.foldl (fun acc c => acc.bind (fun n => if c.isDigit then some (10 * n + (c.toNat - 48)) else none)) (some 0)

/-- JS ToNumber on a string: trimmed, empty means 0, optional sign, decimal
digits with an optional fractional part, anything else NaN.  Hex and exponent
forms are not modelled; no value this code stores uses them. -/
def strToNum (s : String) : JsNum :=
  let t := s.trim
  if t.isEmpty then JsNum.num (JsRat.ofInt 0)
  else
    let cs := t.toList
    let sign : ℤ := if cs.head? = some '-' then -1 else 1
    let body := if cs.head? = some '-' ∨ cs.head? = some '+' then cs.tail else cs
    match body.span (fun c => c ≠ '.') with
    | (intPart, []) =>
      match decDigits? intPart with
      | some n => JsNum.num ⟨sign * n, 1⟩
      | none => JsNum.nan
    | (intPart, _dot :: fracPart) =>
      if intPart.isEmpty ∧ fracPart.isEmpty then JsNum.nan
      else
        let ip := if intPart.isEmpty then some 0 else decDigits? intPart
        let fp := if fracPart.isEmpty then some 0 else decDigits? fracPart
        match ip, fp with
        | some a, some b =>
            JsNum.num ⟨sign * ((a : ℤ) * 10 ^ fracPart.length + (b : ℤ)), 10 ^ fracPart.length⟩
        | _, _ => JsNum.nan

/-- Rendering of a JS number as a string; exact for integers, which is the
only case the source can produce (it only ever concatenates the literal 1). -/
def jsRatToString (q : JsRat) : String :=
  if q.d = 1 then toString q.n else toString q.n ++ "/" ++ toString q.d

/-- JS ToPrimitive with the default hint: a plain object (no valueOf
override) converts through Object.prototype.toString. -/
def jsToPrimitive : JsVal → JsVal
  | JsVal.obj _ => JsVal.str "[object Object]"
  | v => v

/-- JS ToNumber on a value. -/
def jsToNumber (v : JsVal) : JsNum :=
  match jsToPrimitive v with
  | JsVal.undef => JsNum.nan
  | JsVal.null => JsNum.num (JsRat.ofInt 0)
  | JsVal.bool b => JsNum.num (JsRat.ofInt (if b then 1 else 0))
  | JsVal.num n => n
  | JsVal.str s => strToNum s
  | JsVal.obj _ => JsNum.nan

/-- JS truthiness. -/
def jsTruthy : JsVal → Bool
  | JsVal.undef => false
  | JsVal.null => false
  | JsVal.bool b => b
  | JsVal.num JsNum.nan => false
  | JsVal.num (JsNum.num q) => !q.isZero
  | JsVal.str s => !s.isEmpty
  | JsVal.obj _ => true

/-- JS field access.  The source only accesses fields of values it has
checked to be truthy, so the throwing null/undefined case is unreachable and
a non-object base yields undefined like any other missing field. -/
def jsField (v : JsVal) (name : String) : JsVal :=
  match v with
  | JsVal.obj fs => (List.lookup name fs).getD JsVal.undef
  | _ => JsVal.undef

/-- JS `+` with an integer literal on the right: string bases concatenate,
all other bases coerce through ToNumber. -/
def jsAddInt (v : JsVal) (x : ℤ) : JsVal :=
  match jsToPrimitive v with
  | JsVal.str s => JsVal.str (s ++ jsRatToString (JsRat.ofInt x))
  | p => JsVal.num (JsNum.add (jsToNumber p) (JsNum.num (JsRat.ofInt x)))

/-- What `JSON.stringify` makes of one field value of a (flat) entry object:
NaN serializes as null.  The entries this code writes are flat objects of
primitives, so deeper recursion is not needed. -/
def encodeFieldVal : JsVal → JsVal
  | JsVal.num JsNum.nan => JsVal.null
  | v => v

/-- One field of an entry object under `JSON.stringify`: a field whose value
is undefined is dropped, any other value is kept (canonicalized). -/
def encodeField : String × JsVal → Option (String × JsVal)
  | (_, JsVal.undef) => none
  | (k, v) => some (k, encodeFieldVal v)

/-- Canonicalization a stored entry undergoes through `JSON.stringify`
followed by the JSON read of the next call: fields whose value is undefined
are dropped, NaN becomes null. -/
def storeEncode : JsVal → JsVal
  | JsVal.obj fs => JsVal.obj (fs.filterMap encodeField)
  | JsVal.num JsNum.nan => JsVal.null
  | v => v

/-- The shared TTL-capable key-value store, as the parsed values it holds:
each key maps to the JSON value a read would return together with the
`expirationTtl` (seconds) the value was written with.  Store-side expiry is
not simulated; the TTL is carried so that statements about written TTLs can
be made. -/
def Store := List (String × JsVal × ℤ)

/-- Read a key: the first binding wins (keys are unique by construction of
`Store.put`). -/
def Store.get (s : Store) (k : String) : Option (JsVal × ℤ) :=
  (s.find? (fun e => e.1 == k)).map (fun e => e.2)

/-- Write a key with a TTL, overwriting any previous binding. -/
def Store.put (s : Store) (k : String) (v : JsVal) (ttl : ℤ) : Store :=
  (k, v, ttl) :: s.filter (fun e => e.1 != k)

/-- Delete a key. -/
def Store.del (s : Store) (k : String) : Store :=
  s.filter (fun e => e.1 != k)

/-- Which store operations throw during one call.  The source wraps every
store interaction in try/catch; a true flag makes the corresponding operation
raise, sending control to the catch branch. -/
structure StoreFault where
  getFails : Bool
  putFails : Bool
  deleteFails : Bool

/-- A call during which the store works. -/
def noFault : StoreFault := ⟨false, false, false⟩

/-- A call during which every store operation errors. -/
def allFail : StoreFault := ⟨true, true, true⟩

/-- The value the JSON read of a key yields inside the source: the stored
value, or JS null when the key is absent (the KV `get(key, 'json')` API
returns null for a missing key). -/
def Store.readJson (s : Store) (k : String) : JsVal :=
  match s.get k with
  | none => JsVal.null
  | some (v, _) => v

-- ===========================================================================
-- src/security/rate-limiter.ts (src/unnamed/part_000)
-- ===========================================================================

/-- Rate limiter configuration (`RateLimitConfig`). -/
structure RateLimitConfig where
  maxRequests : ℤ
  windowSeconds : ℤ

/-- `checkRateLimit` from src/security/rate-limiter.ts.  Returns the allow
decision together with the store after the call (`none` when no namespace is
configured). -/
def checkRateLimit (clientIp : String) (kvNamespace : Option Store)
    (config : RateLimitConfig) (now : ℤ) (fault : StoreFault) :
    Bool × Option Store :=
  match kvNamespace with
  | none => (true, none)
  | some s =>
    let key := "rate:" ++ clientIp
    if fault.getFails then
      -- catch: on error, allow the request
      (true, some s)
    else
      let stored := s.readJson key
      if !jsTruthy stored then
        -- first request from this IP
        let entry := JsVal.obj [("count", JsVal.ofInt 1), ("windowStart", JsVal.ofInt now)]
        if fault.putFails then (true, some s)
        else (true, some (s.put key (storeEncode entry) config.windowSeconds))
      else
        let windowAgeSeconds :=
          JsNum.div (JsNum.sub (JsNum.num (JsRat.ofInt now)) (jsToNumber (jsField stored "windowStart")))
            (JsNum.num (JsRat.ofInt 1000))
        if JsNum.gt windowAgeSeconds (JsNum.num (JsRat.ofInt config.windowSeconds)) then
          -- window expired, start new one
          let entry := JsVal.obj [("count", JsVal.ofInt 1), ("windowStart", JsVal.ofInt now)]
          if fault.putFails then (true, some s)
          else (true, some (s.put key (storeEncode entry) config.windowSeconds))
        else if JsNum.ge (jsToNumber (jsField stored "count")) (JsNum.num (JsRat.ofInt config.maxRequests)) then
          (false, some s)
        else
          -- increment counter
          let entry := JsVal.obj [("count", jsAddInt (jsField stored "count") 1),
                                  ("windowStart", jsField stored "windowStart")]
          if fault.putFails then (true, some s)
          else (true, some (s.put key (storeEncode entry) config.windowSeconds))

-- ===========================================================================
-- src/security/brute-force.ts
-- ===========================================================================

/-- Brute force configuration (`BruteForceConfig`). -/
structure BruteForceConfig where
  maxAttempts : ℤ
  lockoutSeconds : ℤ

/-- `isAccountLocked` from src/security/brute-force.ts.  The config argument
is unused by the source (kept for signature fidelity). -/
def isAccountLocked (username : String) (kvNamespace : Option Store)
    (_config : BruteForceConfig) (now : ℤ) (fault : StoreFault) : Bool :=
  match kvNamespace with
  | none => false
  | some s =>
    if fault.getFails then false
    else
      let stored := s.readJson ("lockout:" ++ username)
      if !jsTruthy stored then false
      else if jsTruthy (jsField stored "lockedUntil")
              && JsNum.lt (JsNum.num (JsRat.ofInt now)) (jsToNumber (jsField stored "lockedUntil")) then
        true
      else
        -- lock has expired, but entry still exists
        false

/-- `recordFailedAttempt` from src/security/brute-force.ts.  Returns whether
the account is now locked together with the store after the call. -/
def recordFailedAttempt (username : String) (kvNamespace : Option Store)
    (config : BruteForceConfig) (now : ℤ) (fault : StoreFault) :
    Bool × Option Store :=
  match kvNamespace with
  | none => (false, none)
  | some s =>
    let key := "lockout:" ++ username
    if fault.getFails then (false, some s)
    else
      let stored := s.readJson key
      let entry :=
        if !jsTruthy stored
            || (jsTruthy (jsField stored "lockedUntil")
                && JsNum.ge (JsNum.num (JsRat.ofInt now)) (jsToNumber (jsField stored "lockedUntil"))) then
          -- no entry or lock expired - start fresh
          JsVal.obj [("failedAttempts", JsVal.ofInt 1), ("lastFailure", JsVal.ofInt now),
                     ("lockedUntil", JsVal.null)]
        else
          -- increment failed attempts
          let fa := jsAddInt (jsField stored "failedAttempts") 1
          if JsNum.ge (jsToNumber fa) (JsNum.num (JsRat.ofInt config.maxAttempts)) then
            -- lock the account
            JsVal.obj [("failedAttempts", fa), ("lastFailure", JsVal.ofInt now),
                       ("lockedUntil", JsVal.ofInt (now + config.lockoutSeconds * 1000))]
          else
            JsVal.obj [("failedAttempts", fa), ("lastFailure", JsVal.ofInt now),
                       ("lockedUntil", jsField stored "lockedUntil")]
      if fault.putFails then (false, some s)
      else
        -- store with expiration longer than lockout period
        (jsTruthy (jsField entry "lockedUntil"),
         some (s.put key (storeEncode entry) (config.lockoutSeconds * 2)))

/-- `clearFailedAttempts` from src/security/brute-force.ts. -/
def clearFailedAttempts (username : String) (kvNamespace : Option Store)
    (fault : StoreFault) : Option Store :=
  match kvNamespace with
  | none => none
  | some s =>
    if fault.deleteFails then some s
    else some (s.del ("lockout:" ++ username))

-- ===========================================================================
-- src/balance/handler.ts (balance cache) and src/utils/constants.ts
-- ===========================================================================

namespace CONSTANTS

/-- `CONSTANTS.CACHE_TTL_SECONDS` from src/utils/constants.ts. -/
def CACHE_TTL_SECONDS : ℤ := 30

end CONSTANTS

/-- `getCachedBalance` from src/balance/handler.ts.  The TS return type is
`string | null`; returning the raw field value keeps the behavior on a
malformed record (where the field may be undefined) faithful. -/
def getCachedBalance (cacheKey : String) (kvNamespace : Option Store)
    (now : ℤ) (fault : StoreFault) : JsVal :=
  match kvNamespace with
  | none => JsVal.null
  | some s =>
    if fault.getFails then JsVal.null
    else
      let cached := s.readJson cacheKey
      if !jsTruthy cached then JsVal.null
      else
        let age := JsNum.div (JsNum.sub (JsNum.num (JsRat.ofInt now)) (jsToNumber (jsField cached "cachedAt")))
          (JsNum.num (JsRat.ofInt 1000))
        if JsNum.gt age (JsNum.num (JsRat.ofInt CONSTANTS.CACHE_TTL_SECONDS)) then JsVal.null
        else jsField cached "balance"

/-- `setCachedBalance` from src/balance/handler.ts. -/
def setCachedBalance (cacheKey : String) (balance : String)
    (kvNamespace : Option Store) (now : ℤ) (fault : StoreFault) : Option Store :=
  match kvNamespace with
  | none => none
  | some s =>
    if fault.putFails then some s
    else
      let entry := JsVal.obj [("balance", JsVal.str balance), ("cachedAt", JsVal.ofInt now)]
      some (s.put cacheKey (storeEncode entry) (CONSTANTS.CACHE_TTL_SECONDS * 2))

-- ===========================================================================
-- Well-formed entry shapes (the records the source itself writes)
-- ===========================================================================

/-- A well-formed RateLimitEntry as the source writes it. -/
def rateEntry (count windowStart : ℤ) : JsVal :=
  JsVal.obj [("count", JsVal.ofInt count), ("windowStart", JsVal.ofInt windowStart)]

/-- A well-formed LockoutEntry as the source writes it (`lockedUntil` is null
or a number). -/
def lockoutEntry (failedAttempts lastFailure : ℤ) (lockedUntil : Option ℤ) : JsVal :=
  JsVal.obj [("failedAttempts", JsVal.ofInt failedAttempts),
             ("lastFailure", JsVal.ofInt lastFailure),
             ("lockedUntil", match lockedUntil with | none => JsVal.null | some L => JsVal.ofInt L)]

/-- A well-formed CachedBalance entry as the source writes it. -/
def cacheEntry (balance : String) (cachedAt : ℤ) : JsVal :=
  JsVal.obj [("balance", JsVal.str balance), ("cachedAt", JsVal.ofInt cachedAt)]

-- ===========================================================================
-- Sequential call runs for one identity
-- ===========================================================================

/-- Store state after `k` sequential `checkRateLimit` calls for one client,
the i-th call made at time `t i`. -/
def rateLimitRun (ip : String) (config : RateLimitConfig) (t : ℕ → ℤ) (fault : StoreFault)
    (s₀ : Option Store) : ℕ → Option Store
  | 0 => s₀
  | k + 1 => (checkRateLimit ip (rateLimitRun ip config t fault s₀ k) config (t (k + 1)) fault).2

/-- Decision of the k-th `checkRateLimit` call (1-indexed) in such a run. -/
def rateLimitResult (ip : String) (config : RateLimitConfig) (t : ℕ → ℤ) (fault : StoreFault)
    (s₀ : Option Store) (k : ℕ) : Bool :=
  (checkRateLimit ip (rateLimitRun ip config t fault s₀ (k - 1)) config (t k) fault).1

/-- Store state after `k` sequential `recordFailedAttempt` calls for one
account, the i-th call made at time `t i`. -/
def lockoutRun (u : String) (config : BruteForceConfig) (t : ℕ → ℤ) (fault : StoreFault)
    (s₀ : Option Store) : ℕ → Option Store
  | 0 => s₀
  | k + 1 => (recordFailedAttempt u (lockoutRun u config t fault s₀ k) config (t (k + 1)) fault).2

/-- Return value of the k-th `recordFailedAttempt` call (1-indexed) in such a
run. -/
def lockoutResult (u : String) (config : BruteForceConfig) (t : ℕ → ℤ) (fault : StoreFault)
    (s₀ : Option Store) (k : ℕ) : Bool :=
  (recordFailedAttempt u (lockoutRun u config t fault s₀ (k - 1)) config (t k) fault).1

/-- The call times of the example scenario in the spec: calls at seconds
0, 1, 2, 3 and 61 (milliseconds, 1-indexed). -/
def scenarioTimes : ℕ → ℤ :=
  fun i => if i = 5 then 61000 else ((i : ℤ) - 1) * 1000

/-- The per-write condition claimed for `lockedUntil`: the write keeps the old
value or replaces it with a number at least as large. -/
def lockedUntilPreservedOrLater (old new : JsVal) : Prop :=
  new = old ∨ ∃ prev next : ℤ, old = JsVal.ofInt prev ∧ new = JsVal.ofInt next ∧ prev ≤ next

-- ===========================================================================
-- Evaluation equations for the JS semantics helpers
-- ===========================================================================

@[simp] theorem jsTruthy_undef : jsTruthy JsVal.undef = false := rfl

@[simp] theorem jsTruthy_null : jsTruthy JsVal.null = false := rfl

@[simp] theorem jsTruthy_num_nan : jsTruthy (JsVal.num JsNum.nan) = false := rfl

@[simp] theorem jsTruthy_num_num (q : JsRat) : jsTruthy (JsVal.num (JsNum.num q)) = !q.isZero := rfl

@[simp] theorem jsTruthy_obj (fs : List (String × JsVal)) : jsTruthy (JsVal.obj fs) = true := rfl

@[simp] theorem jsField_obj (fs : List (String × JsVal)) (name : String) :
    jsField (JsVal.obj fs) name = (List.lookup name fs).getD JsVal.undef := rfl

@[simp] theorem lookup_cons (a k : String) (v : JsVal) (t : List (String × JsVal)) :
    List.lookup a ((k, v) :: t) = if a == k then some v else List.lookup a t := by
  cases h : a == k <;> simp [List.lookup, h]

@[simp] theorem jsToNumber_num (n : JsNum) : jsToNumber (JsVal.num n) = n := rfl

@[simp] theorem jsToNumber_undef : jsToNumber JsVal.undef = JsNum.nan := rfl

@[simp] theorem jsToNumber_null : jsToNumber JsVal.null = JsNum.num (JsRat.ofInt 0) := rfl

@[simp] theorem JsNum.sub_num_num (a b : JsRat) :
    JsNum.sub (JsNum.num a) (JsNum.num b) = JsNum.num (a.sub b) := rfl

@[simp] theorem JsNum.sub_nan_left (b : JsNum) : JsNum.sub JsNum.nan b = JsNum.nan := rfl

@[simp] theorem JsNum.sub_nan_right (a : JsNum) : JsNum.sub a JsNum.nan = JsNum.nan := by
  cases a <;> rfl

@[simp] theorem JsNum.div_num_num (a b : JsRat) :
    JsNum.div (JsNum.num a) (JsNum.num b) = JsNum.num (a.div b) := rfl

@[simp] theorem JsNum.div_nan_left (b : JsNum) : JsNum.div JsNum.nan b = JsNum.nan := rfl

@[simp] theorem JsNum.gt_num_num (a b : JsRat) : JsNum.gt (JsNum.num a) (JsNum.num b) = b.blt a := rfl

@[simp] theorem JsNum.gt_nan_left (b : JsNum) : JsNum.gt JsNum.nan b = false := rfl

@[simp] theorem JsNum.ge_num_num (a b : JsRat) : JsNum.ge (JsNum.num a) (JsNum.num b) = b.ble a := rfl

@[simp] theorem JsNum.ge_nan_left (b : JsNum) : JsNum.ge JsNum.nan b = false := rfl

@[simp] theorem JsNum.lt_num_num (a b : JsRat) : JsNum.lt (JsNum.num a) (JsNum.num b) = a.blt b := rfl

@[simp] theorem jsAddInt_num (n : JsNum) (x : ℤ) :
    jsAddInt (JsVal.num n) x = JsVal.num (JsNum.add n (JsNum.num (JsRat.ofInt x))) := rfl

@[simp] theorem jsAddInt_undef (x : ℤ) : jsAddInt JsVal.undef x = JsVal.num JsNum.nan := rfl

@[simp] theorem JsNum.add_num_num (a b : JsRat) :
    JsNum.add (JsNum.num a) (JsNum.num b) = JsNum.num (a.add b) := rfl

@[simp] theorem JsRat.add_int_int (a b : ℤ) :
    JsRat.add (JsRat.ofInt a) (JsRat.ofInt b) = JsRat.ofInt (a + b) := by
  simp [JsRat.add, JsRat.ofInt]

@[simp] theorem JsRat.sub_int_int (a b : ℤ) :
    JsRat.sub (JsRat.ofInt a) (JsRat.ofInt b) = JsRat.ofInt (a - b) := by
  simp [JsRat.sub, JsRat.ofInt]

@[simp] theorem JsRat.div_int_int (a b : ℤ) :
    JsRat.div (JsRat.ofInt a) (JsRat.ofInt b) = ⟨a, b⟩ := by
  simp [JsRat.div, JsRat.ofInt]

@[simp] theorem JsRat.blt_int (a : ℤ) (q : JsRat) :
    JsRat.blt (JsRat.ofInt a) q = decide (a * q.d < q.n) := by
  simp [JsRat.blt, JsRat.ofInt]

@[simp] theorem JsRat.blt_int_right (q : JsRat) (b : ℤ) :
    JsRat.blt q (JsRat.ofInt b) = decide (q.n < b * q.d) := by
  simp [JsRat.blt, JsRat.ofInt]

@[simp] theorem JsRat.ble_int (a : ℤ) (q : JsRat) :
    JsRat.ble (JsRat.ofInt a) q = decide (a * q.d ≤ q.n) := by
  simp [JsRat.ble, JsRat.ofInt]

@[simp] theorem JsRat.ble_int_right (q : JsRat) (b : ℤ) :
    JsRat.ble q (JsRat.ofInt b) = decide (q.n ≤ b * q.d) := by
  simp [JsRat.ble, JsRat.ofInt]

@[simp] theorem JsRat.ofInt_n (a : ℤ) : (JsRat.ofInt a).n = a := rfl

@[simp] theorem JsRat.ofInt_d (a : ℤ) : (JsRat.ofInt a).d = 1 := rfl

@[simp] theorem JsRat.isZero_int (a : ℤ) : JsRat.isZero (JsRat.ofInt a) = decide (a = 0) := rfl

@[simp] theorem encodeField_drop (k : String) : encodeField (k, JsVal.undef) = none := rfl

@[simp] theorem encodeField_null (k : String) : encodeField (k, JsVal.null) = some (k, JsVal.null) := rfl

@[simp] theorem encodeField_str (k : String) (s : String) :
    encodeField (k, JsVal.str s) = some (k, JsVal.str s) := rfl

@[simp] theorem encodeField_num_nan (k : String) :
    encodeField (k, JsVal.num JsNum.nan) = some (k, JsVal.null) := rfl

@[simp] theorem encodeField_num_num (k : String) (q : JsRat) :
    encodeField (k, JsVal.num (JsNum.num q)) = some (k, JsVal.num (JsNum.num q)) := rfl

@[simp] theorem storeEncode_obj (fs : List (String × JsVal)) :
    storeEncode (JsVal.obj fs) = JsVal.obj (fs.filterMap encodeField) := rfl

theorem Store.get_put_self (s : Store) (k : String) (v : JsVal) (ttl : ℤ) :
    (s.put k v ttl).get k = some (v, ttl) := by
  simp [Store.get, Store.put, List.find?]

theorem jsField_lockoutEntry_lockedUntil (fa lf : ℤ) (lu : Option ℤ) :
    jsField (lockoutEntry fa lf lu) "lockedUntil" =
      (match lu with | none => JsVal.null | some L => JsVal.ofInt L) := by
  cases lu <;> simp [lockoutEntry]

-- ===========================================================================
-- Branch characterizations (store working, i.e. noFault)
-- ===========================================================================

theorem checkRateLimit_absent (ip : String) (s : Store) (config : RateLimitConfig) (now : ℤ)
    (h : s.get ("rate:" ++ ip) = none) :
    checkRateLimit ip (some s) config now noFault =
      (true, some (s.put ("rate:" ++ ip) (rateEntry 1 now) config.windowSeconds)) := by
  simp [checkRateLimit, Store.readJson, h, noFault, rateEntry, JsVal.ofInt]

theorem checkRateLimit_expired (ip : String) (s : Store) (config : RateLimitConfig) (now c ws ttl : ℤ)
    (h : s.get ("rate:" ++ ip) = some (rateEntry c ws, ttl))
    (hexp : config.windowSeconds * 1000 < now - ws) :
    checkRateLimit ip (some s) config now noFault =
      (true, some (s.put ("rate:" ++ ip) (rateEntry 1 now) config.windowSeconds)) := by
  simp [checkRateLimit, Store.readJson, h, noFault, rateEntry, JsVal.ofInt, hexp]

theorem checkRateLimit_denied (ip : String) (s : Store) (config : RateLimitConfig) (now c ws ttl : ℤ)
    (h : s.get ("rate:" ++ ip) = some (rateEntry c ws, ttl))
    (hwin : now - ws ≤ config.windowSeconds * 1000)
    (hc : config.maxRequests ≤ c) :
    checkRateLimit ip (some s) config now noFault = (false, some s) := by
  have hno : ¬ (config.windowSeconds * 1000 < now - ws) := by omega
  simp [checkRateLimit, Store.readJson, h, noFault, rateEntry, JsVal.ofInt, hno, hc]

theorem checkRateLimit_increment (ip : String) (s : Store) (config : RateLimitConfig) (now c ws ttl : ℤ)
    (h : s.get ("rate:" ++ ip) = some (rateEntry c ws, ttl))
    (hwin : now - ws ≤ config.windowSeconds * 1000)
    (hc : c < config.maxRequests) :
    checkRateLimit ip (some s) config now noFault =
      (true, some (s.put ("rate:" ++ ip) (rateEntry (c + 1) ws) config.windowSeconds)) := by
  have hno : ¬ (config.windowSeconds * 1000 < now - ws) := by omega
  have hno2 : ¬ (config.maxRequests ≤ c) := by omega
  simp [checkRateLimit, Store.readJson, h, noFault, rateEntry, JsVal.ofInt, hno, hno2]

theorem recordFailedAttempt_absent (u : String) (s : Store) (config : BruteForceConfig) (now : ℤ)
    (h : s.get ("lockout:" ++ u) = none) :
    recordFailedAttempt u (some s) config now noFault =
      (false, some (s.put ("lockout:" ++ u) (lockoutEntry 1 now none) (config.lockoutSeconds * 2))) := by
  simp [recordFailedAttempt, Store.readJson, h, noFault, lockoutEntry, JsVal.ofInt]

theorem recordFailedAttempt_tracking_nolock (u : String) (s : Store) (config : BruteForceConfig)
    (now fa lf ttl : ℤ)
    (h : s.get ("lockout:" ++ u) = some (lockoutEntry fa lf none, ttl))
    (hfa : fa + 1 < config.maxAttempts) :
    recordFailedAttempt u (some s) config now noFault =
      (false, some (s.put ("lockout:" ++ u) (lockoutEntry (fa + 1) now none) (config.lockoutSeconds * 2))) := by
  have hno : ¬ (config.maxAttempts ≤ fa + 1) := by omega
  simp [recordFailedAttempt, Store.readJson, h, noFault, lockoutEntry, JsVal.ofInt, hno]

theorem recordFailedAttempt_tracking_lock (u : String) (s : Store) (config : BruteForceConfig)
    (now fa lf ttl : ℤ)
    (h : s.get ("lockout:" ++ u) = some (lockoutEntry fa lf none, ttl))
    (hfa : config.maxAttempts ≤ fa + 1)
    (hnz : now + config.lockoutSeconds * 1000 ≠ 0) :
    recordFailedAttempt u (some s) config now noFault =
      (true, some (s.put ("lockout:" ++ u)
        (lockoutEntry (fa + 1) now (some (now + config.lockoutSeconds * 1000)))
        (config.lockoutSeconds * 2))) := by
  simp [recordFailedAttempt, Store.readJson, h, noFault, lockoutEntry, JsVal.ofInt, hfa, hnz]

theorem recordFailedAttempt_expired (u : String) (s : Store) (config : BruteForceConfig)
    (now fa lf L ttl : ℤ)
    (h : s.get ("lockout:" ++ u) = some (lockoutEntry fa lf (some L), ttl))
    (hL : L ≠ 0) (hexp : L ≤ now) :
    recordFailedAttempt u (some s) config now noFault =
      (false, some (s.put ("lockout:" ++ u) (lockoutEntry 1 now none) (config.lockoutSeconds * 2))) := by
  simp [recordFailedAttempt, Store.readJson, h, noFault, lockoutEntry, JsVal.ofInt, hL, hexp]

theorem recordFailedAttempt_locked_extend (u : String) (s : Store) (config : BruteForceConfig)
    (now fa lf L ttl : ℤ)
    (h : s.get ("lockout:" ++ u) = some (lockoutEntry fa lf (some L), ttl))
    (hL : L ≠ 0) (hact : now < L) (hfa : config.maxAttempts ≤ fa + 1)
    (hnz : now + config.lockoutSeconds * 1000 ≠ 0) :
    recordFailedAttempt u (some s) config now noFault =
      (true, some (s.put ("lockout:" ++ u)
        (lockoutEntry (fa + 1) now (some (now + config.lockoutSeconds * 1000)))
        (config.lockoutSeconds * 2))) := by
  have hno : ¬ (L ≤ now) := by omega
  simp [recordFailedAttempt, Store.readJson, h, noFault, lockoutEntry, JsVal.ofInt, hL, hno, hfa, hnz]

theorem recordFailedAttempt_locked_preserve (u : String) (s : Store) (config : BruteForceConfig)
    (now fa lf L ttl : ℤ)
    (h : s.get ("lockout:" ++ u) = some (lockoutEntry fa lf (some L), ttl))
    (hL : L ≠ 0) (hact : now < L) (hfa : fa + 1 < config.maxAttempts) :
    recordFailedAttempt u (some s) config now noFault =
      (true, some (s.put ("lockout:" ++ u) (lockoutEntry (fa + 1) now (some L)) (config.lockoutSeconds * 2))) := by
  have hno : ¬ (L ≤ now) := by omega
  have hno2 : ¬ (config.maxAttempts ≤ fa + 1) := by omega
  simp [recordFailedAttempt, Store.readJson, h, noFault, lockoutEntry, JsVal.ofInt, hL, hno, hno2]

theorem isAccountLocked_absent (u : String) (s : Store) (config : BruteForceConfig) (now : ℤ)
    (h : s.get ("lockout:" ++ u) = none) :
    isAccountLocked u (some s) config now noFault = false := by
  simp [isAccountLocked, Store.readJson, h, noFault]

theorem isAccountLocked_expired (u : String) (s : Store) (config : BruteForceConfig)
    (now fa lf L ttl : ℤ)
    (h : s.get ("lockout:" ++ u) = some (lockoutEntry fa lf (some L), ttl))
    (hexp : L ≤ now) :
    isAccountLocked u (some s) config now noFault = false := by
  have hno : ¬ (now < L) := by omega
  simp [isAccountLocked, Store.readJson, h, noFault, lockoutEntry, JsVal.ofInt, hno]

theorem isAccountLocked_active (u : String) (s : Store) (config : BruteForceConfig)
    (now fa lf L ttl : ℤ)
    (h : s.get ("lockout:" ++ u) = some (lockoutEntry fa lf (some L), ttl))
    (hL : L ≠ 0) (hact : now < L) :
    isAccountLocked u (some s) config now noFault = true := by
  simp [isAccountLocked, Store.readJson, h, noFault, lockoutEntry, JsVal.ofInt, hL, hact]

theorem clearFailedAttempts_eq (u : String) (s : Store) :
    clearFailedAttempts u (some s) noFault = some (s.del ("lockout:" ++ u)) := rfl

theorem setCachedBalance_eq (ck bal : String) (s : Store) (now : ℤ) :
    setCachedBalance ck bal (some s) now noFault =
      some (s.put ck (cacheEntry bal now) (CONSTANTS.CACHE_TTL_SECONDS * 2)) := by
  simp [setCachedBalance, noFault, cacheEntry, JsVal.ofInt]

theorem getCachedBalance_hit (ck bal : String) (s : Store) (now ca ttl : ℤ)
    (h : s.get ck = some (cacheEntry bal ca, ttl))
    (hfresh : now - ca ≤ CONSTANTS.CACHE_TTL_SECONDS * 1000) :
    getCachedBalance ck (some s) now noFault = JsVal.str bal := by
  have hno : ¬ (CONSTANTS.CACHE_TTL_SECONDS * 1000 < now - ca) := by omega
  simp [getCachedBalance, Store.readJson, h, noFault, cacheEntry, JsVal.ofInt, hno]

theorem getCachedBalance_stale (ck bal : String) (s : Store) (now ca ttl : ℤ)
    (h : s.get ck = some (cacheEntry bal ca, ttl))
    (hstale : CONSTANTS.CACHE_TTL_SECONDS * 1000 < now - ca) :
    getCachedBalance ck (some s) now noFault = JsVal.null := by
  simp [getCachedBalance, Store.readJson, h, noFault, cacheEntry, JsVal.ofInt, hstale]

-- ===========================================================================
-- State of a run of sequential calls for one identity
-- ===========================================================================

theorem rateLimitRun_state (ip : String) (s₀ : Store) (M : ℕ) (w : ℤ) (t : ℕ → ℤ)
    (h₀ : s₀.get ("rate:" ++ ip) = none)
    (hwin : ∀ i : ℕ, 1 ≤ i → i ≤ M → t i - t 1 ≤ w * 1000) :
    ∀ k : ℕ, 1 ≤ k → k ≤ M →
      ∃ s, rateLimitRun ip ⟨(M : ℤ), w⟩ t noFault (some s₀) k = some s ∧
        s.get ("rate:" ++ ip) = some (rateEntry (k : ℤ) (t 1), w) := by
  intro k
  induction k with
  | zero => intro h1 _; exact absurd h1 (by norm_num)
  | succ k ih =>
    intro _ hk
    rcases Nat.eq_zero_or_pos k with h0 | hpos
    · subst h0
      have hstep := checkRateLimit_absent ip s₀ ⟨(M : ℤ), w⟩ (t 1) h₀
      refine ⟨s₀.put ("rate:" ++ ip) (rateEntry 1 (t 1)) w, ?_, ?_⟩
      · simp only [rateLimitRun, hstep]
      · rw [Store.get_put_self]
        norm_num
    · obtain ⟨s, hrun, hget⟩ := ih (by omega) (by omega)
      have hstep := checkRateLimit_increment ip s ⟨(M : ℤ), w⟩ (t (k + 1)) (k : ℤ) (t 1) w hget
        (hwin (k + 1) (by omega) (by omega))
        (show (k : ℤ) < (M : ℤ) by exact_mod_cast (show k < M by omega))
      refine ⟨s.put ("rate:" ++ ip) (rateEntry ((k : ℤ) + 1) (t 1)) w, ?_, ?_⟩
      · simp only [rateLimitRun, hrun, hstep]
      · rw [Store.get_put_self]
        norm_cast

theorem lockoutRun_state (u : String) (s₀ : Store) (m : ℕ) (lock : ℤ) (t : ℕ → ℤ)
    (h₀ : s₀.get ("lockout:" ++ u) = none) :
    ∀ k : ℕ, 1 ≤ k → k < m →
      ∃ s, lockoutRun u ⟨(m : ℤ), lock⟩ t noFault (some s₀) k = some s ∧
        s.get ("lockout:" ++ u) = some (lockoutEntry (k : ℤ) (t k) none, lock * 2) := by
  intro k
  induction k with
  | zero => intro h1 _; exact absurd h1 (by norm_num)
  | succ k ih =>
    intro _ hk
    rcases Nat.eq_zero_or_pos k with h0 | hpos
    · subst h0
      have hstep := recordFailedAttempt_absent u s₀ ⟨(m : ℤ), lock⟩ (t 1) h₀
      refine ⟨s₀.put ("lockout:" ++ u) (lockoutEntry 1 (t 1) none) (lock * 2), ?_, ?_⟩
      · simp only [lockoutRun, hstep]
      · rw [Store.get_put_self]
        norm_num
    · obtain ⟨s, hrun, hget⟩ := ih (by omega) (by omega)
      have hstep := recordFailedAttempt_tracking_nolock u s ⟨(m : ℤ), lock⟩ (t (k + 1)) (k : ℤ)
        (t k) (lock * 2) hget
        (show (k : ℤ) + 1 < (m : ℤ) by exact_mod_cast (show k + 1 < m by omega))
      refine ⟨s.put ("lockout:" ++ u) (lockoutEntry ((k : ℤ) + 1) (t (k + 1)) none) (lock * 2), ?_, ?_⟩
      · simp only [lockoutRun, hrun, hstep]
      · rw [Store.get_put_self]
        norm_cast

-- ===========================================================================
-- Claim theorems
-- ===========================================================================

/-- Claim C1, counterexample.  The claim asserts the trip point for every
configuration with maxAttempts ≥ 1, so with maxAttempts = 1 the first
`recordFailedAttempt` call for a fresh identity would have to return
nowLocked = true; the source's start-fresh branch never performs the
threshold check, so that call returns false. -/
theorem recordFailedAttempt_trip_point_counterexample :
    lockoutResult "alice" ⟨1, 900⟩ (fun i => 1000 * (i : ℤ)) noFault (some []) 1 = false := rfl

/-- Claim C1, amended: for every configuration with maxAttempts ≥ 2 (and a
positive lockout window, calls at non-negative wall-clock times), a run of
maxAttempts consecutive `recordFailedAttempt` calls for an identity with no
prior lockout state returns nowLocked = false on each of the first
maxAttempts - 1 calls and nowLocked = true on the maxAttempts-th call.  With
maxAttempts = 1 the first call starts fresh without the threshold check and
returns false (the lock trips on the second failure instead). -/
theorem recordFailedAttempt_trip_point (u : String) (s₀ : Store) (m : ℕ) (lock : ℤ) (t : ℕ → ℤ)
    (hm : 2 ≤ m) (hl : 0 < lock) (htm : 0 ≤ t m)
    (h₀ : s₀.get ("lockout:" ++ u) = none) :
    (∀ k : ℕ, 1 ≤ k → k < m →
        lockoutResult u ⟨(m : ℤ), lock⟩ t noFault (some s₀) k = false) ∧
    lockoutResult u ⟨(m : ℤ), lock⟩ t noFault (some s₀) m = true := by
  have hstate := lockoutRun_state u s₀ m lock t h₀
  constructor
  · intro k h1 hk
    by_cases hk1 : k = 1
    · subst hk1
      simp [lockoutResult, lockoutRun, recordFailedAttempt_absent u s₀ ⟨(m : ℤ), lock⟩ (t 1) h₀]
    · obtain ⟨s, hrun, hget⟩ := hstate (k - 1) (by omega) (by omega)
      have hstep := recordFailedAttempt_tracking_nolock u s ⟨(m : ℤ), lock⟩ (t k)
        ((k - 1 : ℕ) : ℤ) (t (k - 1)) (lock * 2) hget
        (show ((k - 1 : ℕ) : ℤ) + 1 < (m : ℤ) by omega)
      simp [lockoutResult, hrun, hstep]
  · obtain ⟨s, hrun, hget⟩ := hstate (m - 1) (by omega) (by omega)
    have hstep := recordFailedAttempt_tracking_lock u s ⟨(m : ℤ), lock⟩ (t m)
      ((m - 1 : ℕ) : ℤ) (t (m - 1)) (lock * 2) hget
      (show (m : ℤ) ≤ ((m - 1 : ℕ) : ℤ) + 1 by omega)
      (show t m + (⟨(m : ℤ), lock⟩ : BruteForceConfig).lockoutSeconds * 1000 ≠ 0 by
        show t m + lock * 1000 ≠ 0
        omega)
    simp [lockoutResult, hrun, hstep]

/-- Claim C1, witness: the amended trip-point theorem applied with
maxAttempts = 5, lockoutSeconds = 900, calls at seconds 1..5: the 4th call
returns false and the 5th returns true. -/
theorem recordFailedAttempt_trip_point_witness :
    lockoutResult "alice" ⟨((5 : ℕ) : ℤ), 900⟩ (fun i => 1000 * (i : ℤ)) noFault (some []) 4 = false ∧
    lockoutResult "alice" ⟨((5 : ℕ) : ℤ), 900⟩ (fun i => 1000 * (i : ℤ)) noFault (some []) 5 = true :=
  ⟨(recordFailedAttempt_trip_point "alice" [] 5 900 (fun i => 1000 * (i : ℤ))
      (by norm_num) (by norm_num) (by norm_num) rfl).1 4 (by norm_num) (by norm_num),
   (recordFailedAttempt_trip_point "alice" [] 5 900 (fun i => 1000 * (i : ℤ))
      (by norm_num) (by norm_num) (by norm_num) rfl).2⟩

/-- Claim C2: with no key-value namespace configured, or with a store whose
every operation errors, `checkRateLimit` allows, `isAccountLocked` reports
unlocked, `recordFailedAttempt` reports not locked, the cache read misses,
and no call changes the store or escapes as an exception (the embedded
functions are total and return plain values through the catch branches). -/
theorem failOpen_under_store_outage (ip u ck bal : String) (rcfg : RateLimitConfig)
    (bcfg : BruteForceConfig) (now : ℤ) (s : Store) (f : StoreFault) :
    checkRateLimit ip none rcfg now f = (true, none) ∧
    isAccountLocked u none bcfg now f = false ∧
    recordFailedAttempt u none bcfg now f = (false, none) ∧
    getCachedBalance ck none now f = JsVal.null ∧
    setCachedBalance ck bal none now f = none ∧
    clearFailedAttempts u none f = none ∧
    checkRateLimit ip (some s) rcfg now allFail = (true, some s) ∧
    isAccountLocked u (some s) bcfg now allFail = false ∧
    recordFailedAttempt u (some s) bcfg now allFail = (false, some s) ∧
    getCachedBalance ck (some s) now allFail = JsVal.null ∧
    setCachedBalance ck bal (some s) now allFail = some s ∧
    clearFailedAttempts u (some s) allFail = some s :=
  ⟨rfl, rfl, rfl, rfl, rfl, rfl, rfl, rfl, rfl, rfl, rfl, rfl⟩

/-- Claim C3: window correctness.  For any maxRequests ≥ 1 and an identity
with no prior RateWindow, the first N ≤ maxRequests sequential calls within
the window all return allowed with stored counts 1..N (windowStart pinned to
the first call), the call after maxRequests within the same window is denied;
and in the concrete scenario maxRequests = 3, windowSeconds = 60, IP 9.9.9.9,
calls at t = 0, 1, 2 s are allowed with counts 1, 2, 3, the call at t = 3 s
is denied (leaving the record unchanged), and the call at t = 61 s is allowed
with the count reset to 1. -/
theorem checkRateLimit_window_correctness (ip : String) (s₀ : Store) (M : ℕ) (w : ℤ) (t : ℕ → ℤ)
    (hM : 1 ≤ M)
    (h₀ : s₀.get ("rate:" ++ ip) = none)
    (hwin : ∀ i : ℕ, 1 ≤ i → i ≤ M + 1 → t i - t 1 ≤ w * 1000) :
    (∀ k : ℕ, 1 ≤ k → k ≤ M →
        rateLimitResult ip ⟨(M : ℤ), w⟩ t noFault (some s₀) k = true ∧
        ∃ s, rateLimitRun ip ⟨(M : ℤ), w⟩ t noFault (some s₀) k = some s ∧
          s.get ("rate:" ++ ip) = some (rateEntry (k : ℤ) (t 1), w)) ∧
    rateLimitResult ip ⟨(M : ℤ), w⟩ t noFault (some s₀) (M + 1) = false ∧
    (rateLimitResult "9.9.9.9" ⟨3, 60⟩ scenarioTimes noFault (some []) 1 = true ∧
     rateLimitResult "9.9.9.9" ⟨3, 60⟩ scenarioTimes noFault (some []) 2 = true ∧
     rateLimitResult "9.9.9.9" ⟨3, 60⟩ scenarioTimes noFault (some []) 3 = true ∧
     rateLimitResult "9.9.9.9" ⟨3, 60⟩ scenarioTimes noFault (some []) 4 = false ∧
     rateLimitResult "9.9.9.9" ⟨3, 60⟩ scenarioTimes noFault (some []) 5 = true ∧
     rateLimitRun "9.9.9.9" ⟨3, 60⟩ scenarioTimes noFault (some []) 1 =
       some [("rate:9.9.9.9", rateEntry 1 0, 60)] ∧
     rateLimitRun "9.9.9.9" ⟨3, 60⟩ scenarioTimes noFault (some []) 2 =
       some [("rate:9.9.9.9", rateEntry 2 0, 60)] ∧
     rateLimitRun "9.9.9.9" ⟨3, 60⟩ scenarioTimes noFault (some []) 3 =
       some [("rate:9.9.9.9", rateEntry 3 0, 60)] ∧
     rateLimitRun "9.9.9.9" ⟨3, 60⟩ scenarioTimes noFault (some []) 4 =
       some [("rate:9.9.9.9", rateEntry 3 0, 60)] ∧
     rateLimitRun "9.9.9.9" ⟨3, 60⟩ scenarioTimes noFault (some []) 5 =
       some [("rate:9.9.9.9", rateEntry 1 61000, 60)]) := by
  have hwinM : ∀ i : ℕ, 1 ≤ i → i ≤ M → t i - t 1 ≤ w * 1000 :=
    fun i h1 h2 => hwin i h1 (by omega)
  have hstate := rateLimitRun_state ip s₀ M w t h₀ hwinM
  refine ⟨?_, ?_, rfl, rfl, rfl, rfl, rfl, rfl, rfl, rfl, rfl, rfl⟩
  · intro k h1 hk
    refine ⟨?_, hstate k h1 hk⟩
    by_cases hk1 : k = 1
    · subst hk1
      simp [rateLimitResult, rateLimitRun, checkRateLimit_absent ip s₀ ⟨(M : ℤ), w⟩ (t 1) h₀]
    · obtain ⟨s, hrun, hget⟩ := hstate (k - 1) (by omega) (by omega)
      have hstep := checkRateLimit_increment ip s ⟨(M : ℤ), w⟩ (t k) ((k - 1 : ℕ) : ℤ) (t 1) w hget
        (hwin k h1 (by omega))
        (show ((k - 1 : ℕ) : ℤ) < (M : ℤ) by exact_mod_cast (show k - 1 < M by omega))
      simp [rateLimitResult, hrun, hstep]
  · obtain ⟨s, hrun, hget⟩ := hstate M hM le_rfl
    have hstep := checkRateLimit_denied ip s ⟨(M : ℤ), w⟩ (t (M + 1)) (M : ℤ) (t 1) w hget
      (hwin (M + 1) (by omega) (by omega)) le_rfl
    simp [rateLimitResult, hrun, hstep]

/-- Claim C3, witness: the window-correctness theorem applied at the spec's
example scenario; the 4th call (still inside the window) is denied. -/
theorem checkRateLimit_window_correctness_witness :
    rateLimitResult "9.9.9.9" ⟨((3 : ℕ) : ℤ), 60⟩ scenarioTimes noFault (some []) 4 = false :=
  (checkRateLimit_window_correctness "9.9.9.9" [] 3 60 scenarioTimes (by norm_num) rfl
    (by
      intro i h1 h2
      simp only [scenarioTimes]
      rw [if_neg (by omega), if_neg (by omega)]
      omega)).2.1

/-- Claim C4, counterexample.  Once the stored lock has expired but the
record is still in the store (it is only deleted by `clearFailedAttempts` or
store-side TTL), the next `recordFailedAttempt` write resets `lockedUntil` to
null, which neither preserves the previous value 10000 nor replaces it with a
number at least as large. -/
theorem lockout_lockedUntil_monotone_counterexample :
    (recordFailedAttempt "alice"
        (some [("lockout:alice", lockoutEntry 3 0 (some 10000), 1800)]) ⟨5, 900⟩ 15000 noFault).2 =
      some [("lockout:alice", lockoutEntry 1 15000 none, 1800)] ∧
    jsField (lockoutEntry 3 0 (some 10000)) "lockedUntil" = JsVal.ofInt 10000 ∧
    jsField (lockoutEntry 1 15000 none) "lockedUntil" = JsVal.null ∧
    ¬ lockedUntilPreservedOrLater (JsVal.ofInt 10000) JsVal.null := by
  refine ⟨rfl, rfl, rfl, ?_⟩
  rintro (hnew | ⟨prev, next, _, hnew, _⟩) <;> exact JsVal.noConfusion hnew

/-- Claim C4, amended: while the stored lock is still active (now <
lockedUntil) and the stored `lockedUntil` is reachable under the same
configuration and a non-decreasing clock (lockedUntil ≤ now +
lockoutSeconds·1000), a `recordFailedAttempt` write either preserves
`lockedUntil` or replaces it with a value at least as large.  Once now ≥
lockedUntil the write starts a fresh cycle with `lockedUntil` null (see the
counterexample). -/
theorem lockout_lockedUntil_monotone_while_active (u : String) (s : Store)
    (config : BruteForceConfig) (now fa lf L ttl : ℤ)
    (h : s.get ("lockout:" ++ u) = some (lockoutEntry fa lf (some L), ttl))
    (hL : 0 < L) (hact : now < L)
    (hreach : L ≤ now + config.lockoutSeconds * 1000) :
    ∃ s' v, (recordFailedAttempt u (some s) config now noFault).2 = some s' ∧
      s'.get ("lockout:" ++ u) = some (v, config.lockoutSeconds * 2) ∧
      lockedUntilPreservedOrLater (JsVal.ofInt L) (jsField v "lockedUntil") := by
  by_cases hfa : config.maxAttempts ≤ fa + 1
  · have hstep := recordFailedAttempt_locked_extend u s config now fa lf L ttl h
      (by omega) hact hfa (by omega)
    refine ⟨s.put ("lockout:" ++ u)
        (lockoutEntry (fa + 1) now (some (now + config.lockoutSeconds * 1000)))
        (config.lockoutSeconds * 2),
      lockoutEntry (fa + 1) now (some (now + config.lockoutSeconds * 1000)), ?_, ?_, ?_⟩
    · rw [hstep]
    · exact Store.get_put_self _ _ _ _
    · exact Or.inr ⟨L, now + config.lockoutSeconds * 1000, rfl,
        by rw [jsField_lockoutEntry_lockedUntil], hreach⟩
  · have hstep := recordFailedAttempt_locked_preserve u s config now fa lf L ttl h
      (by omega) hact (by omega)
    refine ⟨s.put ("lockout:" ++ u) (lockoutEntry (fa + 1) now (some L)) (config.lockoutSeconds * 2),
      lockoutEntry (fa + 1) now (some L), ?_, ?_, ?_⟩
    · rw [hstep]
    · exact Store.get_put_self _ _ _ _
    · exact Or.inr ⟨L, L, rfl, by rw [jsField_lockoutEntry_lockedUntil], le_refl L⟩

/-- Claim C4, witness: the active-lock monotonicity theorem applied to a
locked record (lockedUntil = 902000) hit by another failure at now = 500000
with lockoutSeconds = 900. -/
theorem lockout_lockedUntil_monotone_witness :
    ∃ s' v, (recordFailedAttempt "alice"
        (some [("lockout:alice", lockoutEntry 4 0 (some 902000), 1800)]) ⟨5, 900⟩ 500000 noFault).2 = some s' ∧
      s'.get ("lockout:alice") = some (v, (⟨5, 900⟩ : BruteForceConfig).lockoutSeconds * 2) ∧
      lockedUntilPreservedOrLater (JsVal.ofInt 902000) (jsField v "lockedUntil") :=
  lockout_lockedUntil_monotone_while_active "alice"
    [("lockout:alice", lockoutEntry 4 0 (some 902000), 1800)] ⟨5, 900⟩ 500000 4 0 902000 1800
    rfl (by norm_num) (by norm_num) (by norm_num)

/-- Claim C5: when no RateWindow record is stored for the client, every
configuration — including maxRequests = 0 — takes the absent-record branch,
which allows unconditionally and writes count 1 with windowStart now under
TTL windowSeconds, with no special case for a zero threshold. -/
theorem checkRateLimit_absent_always_allows (ip : String) (s : Store)
    (config : RateLimitConfig) (now : ℤ)
    (h : s.get ("rate:" ++ ip) = none) :
    checkRateLimit ip (some s) config now noFault =
      (true, some (s.put ("rate:" ++ ip) (rateEntry 1 now) config.windowSeconds)) :=
  checkRateLimit_absent ip s config now h

/-- Claim C5, witness: the absent-record theorem applied with maxRequests
= 0: the first request is still allowed and the fresh record is written. -/
theorem checkRateLimit_absent_always_allows_witness :
    checkRateLimit "7.7.7.7" (some []) ⟨0, 60⟩ 0 noFault =
      (true, some [("rate:7.7.7.7", rateEntry 1 0, 60)]) :=
  checkRateLimit_absent_always_allows "7.7.7.7" [] ⟨0, 60⟩ 0 rfl

/-- Claim C6, counterexample.  A present record that fails the expected shape
(here the empty JSON object) is not handled like an absent record: starting
from the malformed record the call writes a different entry than starting
from an absent one, so the two runs produce different stores. -/
theorem malformed_record_not_treated_as_absent_counterexample :
    checkRateLimit "1.2.3.4" (some [("rate:1.2.3.4", JsVal.obj [], 60)]) ⟨3, 60⟩ 5000 noFault ≠
      checkRateLimit "1.2.3.4" (some []) ⟨3, 60⟩ 5000 noFault := by
  intro hcontra
  have h1 : checkRateLimit "1.2.3.4" (some [("rate:1.2.3.4", JsVal.obj [], 60)]) ⟨3, 60⟩ 5000 noFault =
      (true, some [("rate:1.2.3.4", JsVal.obj [("count", JsVal.null)], 60)]) := rfl
  have h2 : checkRateLimit "1.2.3.4" (some []) ⟨3, 60⟩ 5000 noFault =
      (true, some [("rate:1.2.3.4",
        JsVal.obj [("count", JsVal.ofInt 1), ("windowStart", JsVal.ofInt 5000)], 60)]) := rfl
  rw [h1, h2] at hcontra
  simp at hcontra

/-- Claim C6, amended: a present record that fails the expected shape is used
for computation with its malformed fields under JavaScript coercion rather
than treated as absent: an empty-object RateWindow yields allowed but writes
count null (count became NaN, windowStart was dropped by JSON.stringify), an
empty-object LockoutState yields false and writes failedAttempts null instead
of a fresh count of 1, and an empty-object cache entry makes the cache read
return undefined rather than the null that signals a miss.  Only a record the
JSON parse rejects reaches the catch branches and fails open. -/
theorem malformed_record_uses_js_coercion :
    checkRateLimit "1.2.3.4" (some [("rate:1.2.3.4", JsVal.obj [], 60)]) ⟨3, 60⟩ 5000 noFault =
      (true, some [("rate:1.2.3.4", JsVal.obj [("count", JsVal.null)], 60)]) ∧
    recordFailedAttempt "bob" (some [("lockout:bob", JsVal.obj [], 1800)]) ⟨5, 900⟩ 5000 noFault =
      (false, some [("lockout:bob",
        JsVal.obj [("failedAttempts", JsVal.null), ("lastFailure", JsVal.ofInt 5000)], 1800)]) ∧
    getCachedBalance "balance:u" (some [("balance:u", JsVal.obj [], 60)]) 5000 noFault = JsVal.undef :=
  ⟨rfl, rfl, rfl⟩

/-- Claim C7: after the stored lock has passed (lockedUntil ≤ now) the record
still exists but `isAccountLocked` returns false, and the next
`recordFailedAttempt` starts a fresh cycle writing failedAttempts = 1 with
lockedUntil null rather than incrementing past maxAttempts. -/
theorem lockout_expiry_rearm (u : String) (s : Store) (config : BruteForceConfig)
    (now fa lf L ttl : ℤ)
    (h : s.get ("lockout:" ++ u) = some (lockoutEntry fa lf (some L), ttl))
    (hL : 0 < L) (hexp : L ≤ now) :
    isAccountLocked u (some s) config now noFault = false ∧
    recordFailedAttempt u (some s) config now noFault =
      (false, some (s.put ("lockout:" ++ u) (lockoutEntry 1 now none) (config.lockoutSeconds * 2))) :=
  ⟨isAccountLocked_expired u s config now fa lf L ttl h hexp,
   recordFailedAttempt_expired u s config now fa lf L ttl h (by omega) hexp⟩

/-- Claim C7, witness: the expiry-rearm theorem applied to a tripped record
(failedAttempts = 5, lockedUntil = 902000) read at now = 903000. -/
theorem lockout_expiry_rearm_witness :
    isAccountLocked "alice"
      (some [("lockout:alice", lockoutEntry 5 0 (some 902000), 1800)]) ⟨5, 900⟩ 903000 noFault = false ∧
    recordFailedAttempt "alice"
      (some [("lockout:alice", lockoutEntry 5 0 (some 902000), 1800)]) ⟨5, 900⟩ 903000 noFault =
      (false, some (Store.put [("lockout:alice", lockoutEntry 5 0 (some 902000), 1800)]
        "lockout:alice" (lockoutEntry 1 903000 none) ((⟨5, 900⟩ : BruteForceConfig).lockoutSeconds * 2))) :=
  lockout_expiry_rearm "alice" [("lockout:alice", lockoutEntry 5 0 (some 902000), 1800)]
    ⟨5, 900⟩ 903000 5 0 902000 1800 rfl (by norm_num) (by norm_num)

/-- Claim C8: a cache `setCachedBalance` overwrites the entry with the value
and cachedAt = now under store TTL 2 × freshnessTtl, and a subsequent
`getCachedBalance` returns the stored value exactly when now − cachedAt is
within the freshness TTL; past it the read misses even though the record is
still physically present. -/
theorem cache_freshness_boundary (ck bal : String) (s : Store) (t1 t2 : ℤ) :
    setCachedBalance ck bal (some s) t1 noFault =
      some (s.put ck (cacheEntry bal t1) (CONSTANTS.CACHE_TTL_SECONDS * 2)) ∧
    (getCachedBalance ck (setCachedBalance ck bal (some s) t1 noFault) t2 noFault = JsVal.str bal ↔
      t2 - t1 ≤ CONSTANTS.CACHE_TTL_SECONDS * 1000) ∧
    (CONSTANTS.CACHE_TTL_SECONDS * 1000 < t2 - t1 →
      getCachedBalance ck (setCachedBalance ck bal (some s) t1 noFault) t2 noFault = JsVal.null ∧
      (s.put ck (cacheEntry bal t1) (CONSTANTS.CACHE_TTL_SECONDS * 2)).get ck =
        some (cacheEntry bal t1, CONSTANTS.CACHE_TTL_SECONDS * 2)) := by
  have hset := setCachedBalance_eq ck bal s t1
  have hgp := Store.get_put_self s ck (cacheEntry bal t1) (CONSTANTS.CACHE_TTL_SECONDS * 2)
  refine ⟨hset, ⟨?_, ?_⟩, ?_⟩
  · intro hhit
    by_contra hcon
    rw [hset, getCachedBalance_stale ck bal _ t2 t1 _ hgp (by omega)] at hhit
    exact JsVal.noConfusion hhit
  · intro hfresh
    rw [hset]
    exact getCachedBalance_hit ck bal _ t2 t1 _ hgp hfresh
  · intro hstale
    refine ⟨?_, hgp⟩
    rw [hset]
    exact getCachedBalance_stale ck bal _ t2 t1 _ hgp hstale

/-- Claim C8, witness: a set at t = 1 s read back at t = 31 s (age exactly the
freshness TTL) hits, and read back at t = 32 s misses. -/
theorem cache_freshness_boundary_witness :
    getCachedBalance "balance:u" (setCachedBalance "balance:u" "12.34" (some []) 1000 noFault)
      31000 noFault = JsVal.str "12.34" ∧
    getCachedBalance "balance:u" (setCachedBalance "balance:u" "12.34" (some []) 1000 noFault)
      32000 noFault = JsVal.null :=
  ⟨(cache_freshness_boundary "balance:u" "12.34" [] 1000 31000).2.1.mpr
      (by norm_num [CONSTANTS.CACHE_TTL_SECONDS]),
   ((cache_freshness_boundary "balance:u" "12.34" [] 1000 32000).2.2
      (by norm_num [CONSTANTS.CACHE_TTL_SECONDS])).1⟩

/-- Claim C9: a stored unexpired RateWindow whose count has reached
maxRequests makes `checkRateLimit` return denied with the store untouched:
the record's count, windowStart and written TTL all remain exactly as they
were. -/
theorem checkRateLimit_denied_no_write (ip : String) (s : Store) (config : RateLimitConfig)
    (now c ws ttl : ℤ)
    (h : s.get ("rate:" ++ ip) = some (rateEntry c ws, ttl))
    (hwin : now - ws ≤ config.windowSeconds * 1000)
    (hc : config.maxRequests ≤ c) :
    checkRateLimit ip (some s) config now noFault = (false, some s) :=
  checkRateLimit_denied ip s config now c ws ttl h hwin hc

/-- Claim C9, witness: a full window (count = 3 of maxRequests = 3) read 3
seconds in is denied and the store is returned unchanged. -/
theorem checkRateLimit_denied_no_write_witness :
    checkRateLimit "9.9.9.9" (some [("rate:9.9.9.9", rateEntry 3 0, 60)]) ⟨3, 60⟩ 3000 noFault =
      (false, some [("rate:9.9.9.9", rateEntry 3 0, 60)]) :=
  checkRateLimit_denied_no_write "9.9.9.9" [("rate:9.9.9.9", rateEntry 3 0, 60)] ⟨3, 60⟩
    3000 3 0 60 rfl (by norm_num) (by norm_num)

/-- Claim C10: a failure recorded while the stored lock is still active (now
< lockedUntil, stored failedAttempts already at or past maxAttempts)
increments failedAttempts past maxAttempts, re-sets lockedUntil to now +
lockoutSeconds·1000, renews the record's store TTL to lockoutSeconds·2, and
returns true. -/
theorem lockout_active_failure_extends (u : String) (s : Store) (config : BruteForceConfig)
    (now fa lf L ttl : ℤ)
    (h : s.get ("lockout:" ++ u) = some (lockoutEntry fa lf (some L), ttl))
    (hL : 0 < L) (hact : now < L) (hfa : config.maxAttempts ≤ fa)
    (hnow : 0 ≤ now) (hlock : 0 < config.lockoutSeconds) :
    recordFailedAttempt u (some s) config now noFault =
      (true, some (s.put ("lockout:" ++ u)
        (lockoutEntry (fa + 1) now (some (now + config.lockoutSeconds * 1000)))
        (config.lockoutSeconds * 2))) ∧
    config.maxAttempts < fa + 1 :=
  ⟨recordFailedAttempt_locked_extend u s config now fa lf L ttl h (by omega) hact (by omega) (by omega),
   by omega⟩

/-- Claim C10, witness: the active-lock theorem applied to a tripped record
(failedAttempts = 5 = maxAttempts, lockedUntil = 902000) hit again at now =
500000: failedAttempts becomes 6 and lockedUntil 1400000. -/
theorem lockout_active_failure_extends_witness :
    recordFailedAttempt "alice"
      (some [("lockout:alice", lockoutEntry 5 0 (some 902000), 1800)]) ⟨5, 900⟩ 500000 noFault =
      (true, some (Store.put [("lockout:alice", lockoutEntry 5 0 (some 902000), 1800)]
        "lockout:alice" (lockoutEntry 6 500000 (some 1400000))
        ((⟨5, 900⟩ : BruteForceConfig).lockoutSeconds * 2))) ∧
    (⟨5, 900⟩ : BruteForceConfig).maxAttempts < 5 + 1 :=
  lockout_active_failure_extends "alice" [("lockout:alice", lockoutEntry 5 0 (some 902000), 1800)]
    ⟨5, 900⟩ 500000 5 0 902000 1800 rfl (by norm_num) (by norm_num) (by norm_num) (by norm_num) (by norm_num)
